import Mathlib

/-!
Verification of the deterministic procedural world generator of the
RPG-worldmap repository (`src/services/worldEngine.ts`), shallowly embedded
in Lean 4.  JavaScript numbers are modelled as exact rationals; the host
trigonometric function `Math.sin` is an opaque parameter `sin : ℚ → ℚ` of
every noise computation, so all theorems hold for every possible sine
implementation.  The JavaScript `Map` backing the placed-object overlay is
modelled as an association list with JS-`Map` semantics (`set` overwrites in
place, insertion order preserved, construction from an entry list inserts
left to right).
-/

/-- `PortalConfig` from `src/types.ts`: teleport target of a custom sprite. -/
structure PortalConfig where
  targetSeed : String
  targetX : ℤ
  targetY : ℤ
deriving DecidableEq

/-- `CustomSprite` from `src/types.ts` (a `PixelArtMatrix` with identity):
the record the generator stores and returns verbatim. -/
structure CustomSprite where
  id : String
  name : String
  createdAt : ℤ
  width : ℕ
  height : ℕ
  palette : List (ℕ × String)
  data : List ℕ
  collision : Option Bool
  portal : Option PortalConfig
deriving DecidableEq

/-- `TileType` from `src/types.ts`. -/
inductive TileType where
  | DEEP_WATER
  | WATER
  | SAND
  | GRASS
  | FOREST
  | DIRT
  | STONE
  | MOUNTAIN
  | SNOW
deriving DecidableEq

/-- `ObjectType` from `src/types.ts`. -/
inductive ObjectType where
  | NONE
  | TREE_OAK
  | ROCK_SMALL
  | FLOWER_RED
  | FLOWER_BLUE
  | HOUSE_SMALL
deriving DecidableEq

/-- `WorldTile` from `src/types.ts`: the result of `getTile`. -/
structure WorldTile where
  x : ℤ
  y : ℤ
  terrain : TileType
  biome : String
  object : Option ObjectType
  customSprite : Option CustomSprite
  variant : ℤ
deriving DecidableEq

/-- `PRNG.hashString` (`worldEngine.ts` lines 13-19): DJB2 variant
`hash = (hash*33) XOR charCode` starting from 5381, on 32-bit patterns
(JavaScript `^` coerces to int32; the final `>>> 0` reads the pattern as an
unsigned 32-bit integer, which is the value mod 2^32 that we track). -/
def hashString (str : String) : ℕ :=
  str.foldl (fun hash c => ((hash * 33) % 4294967296) ^^^ c.toNat) 5381

/-- The `PRNG` class (`worldEngine.ts` lines 5-50): after construction it
holds only the 32-bit hash of the seed string. -/
structure PRNG where
  seed : ℕ

/-- `new PRNG(seedStr)`. -/
def PRNG.ofSeed (seedStr : String) : PRNG :=
  ⟨hashString seedStr⟩

/-- `PRNG.noise(x, y, layer)` (`worldEngine.ts` lines 23-26):
`n = sin(x*12.9898 + y*78.233 + seed + layer*131.2) * 43758.5453` and the
result is `n - floor(n)`.  `sin` is the host sine, passed as a parameter. -/
def PRNG.noise (sin : ℚ → ℚ) (p : PRNG) (x y layer : ℚ) : ℚ :=
  let n : ℚ :=
    sin (x * (129898/10000) + y * (78233/1000) + (p.seed : ℚ) + layer * (1312/10))
      * (437585453/10000)
  n - ⌊n⌋

/-- The local `lerp` of `PRNG.smoothNoise`. -/
def lerp (a b t : ℚ) : ℚ := a + t * (b - a)

/-- The local `smooth` (smoothstep) of `PRNG.smoothNoise`. -/
def smooth (t : ℚ) : ℚ := t * t * (3 - 2 * t)

/-- `PRNG.smoothNoise(x, y)` (`worldEngine.ts` lines 29-49): value noise by
smoothstep-eased bilinear interpolation of the four surrounding lattice
samples of `noise` at the default layer 0. -/
def PRNG.smoothNoise (sin : ℚ → ℚ) (p : PRNG) (x y : ℚ) : ℚ :=
  let floorX : ℤ := ⌊x⌋
  let floorY : ℤ := ⌊y⌋
  let s := PRNG.noise sin p (floorX : ℚ) (floorY : ℚ) 0
  let t := PRNG.noise sin p ((floorX : ℚ) + 1) (floorY : ℚ) 0
  let u := PRNG.noise sin p (floorX : ℚ) ((floorY : ℚ) + 1) 0
  let v := PRNG.noise sin p ((floorX : ℚ) + 1) ((floorY : ℚ) + 1) 0
  let recX := x - (floorX : ℚ)
  let recY := y - (floorY : ℚ)
  lerp (lerp s t (smooth recX)) (lerp u v (smooth recX)) (smooth recY)

/-- Lookup in the JS-`Map` model: `Map.get` (and `Map.has` is
`(mapGet m k).isSome`). -/
def mapGet (m : List (String × CustomSprite)) (k : String) : Option CustomSprite :=
  match m with
  | [] => none
  | (k', v) :: rest => if k' = k then some v else mapGet rest k

/-- `Map.set`: overwrite the value at an existing key in place, else append
the new entry (JS `Map` preserves first-insertion order). -/
def mapSet (m : List (String × CustomSprite)) (k : String) (v : CustomSprite) :
    List (String × CustomSprite) :=
  match m with
  | [] => [(k, v)]
  | (k', v') :: rest => if k' = k then (k, v) :: rest else (k', v') :: mapSet rest k v

/-- `new Map(entries)`: insert the entries left to right into an empty map. -/
def mapFromList (entries : List (String × CustomSprite)) : List (String × CustomSprite) :=
  entries.foldl (fun m e => mapSet m e.1 e.2) []

/-- The coordinate key `` `${x},${y}` `` used by `placeObject` and `getTile`. -/
def tileKey (x y : ℤ) : String :=
  toString x ++ "," ++ toString y

/-- The `WorldGenerator` class (`worldEngine.ts` lines 52-187): a `PRNG` and
the placed-object overlay. -/
structure WorldGenerator where
  prng : PRNG
  placedObjects : List (String × CustomSprite)

/-- `new WorldGenerator(seed)`: fresh `PRNG`, empty overlay. -/
def WorldGenerator.create (seed : String) : WorldGenerator :=
  ⟨PRNG.ofSeed seed, []⟩

/-- `WorldGenerator.placeObject(x, y, sprite)`. -/
def WorldGenerator.placeObject (g : WorldGenerator) (x y : ℤ) (sprite : CustomSprite) :
    WorldGenerator :=
  { g with placedObjects := mapSet g.placedObjects (tileKey x y) sprite }

/-- `WorldGenerator.serializePlacedObjects()`: the overlay entries in
insertion order (`Array.from(map.entries())`). -/
def WorldGenerator.serializePlacedObjects (g : WorldGenerator) :
    List (String × CustomSprite) :=
  g.placedObjects

/-- `WorldGenerator.deserializePlacedObjects(entries)`: replace the overlay
with `new Map(entries)`. -/
def WorldGenerator.deserializePlacedObjects (g : WorldGenerator)
    (entries : List (String × CustomSprite)) : WorldGenerator :=
  { g with placedObjects := mapFromList entries }

/-- Biome determination (`worldEngine.ts` lines 95-101): threshold
`biomeNoise` through the ascending if/else chain; every path assigns, so the
initial `'Unknown'` is overwritten on every branch. -/
def biomeOf (biomeNoise : ℚ) : String :=
  if biomeNoise < 15/100 then "DESERT"
  else if biomeNoise < 30/100 then "SAVANNA"
  else if biomeNoise < 45/100 then "GRASSLAND"
  else if biomeNoise < 65/100 then "RAINFOREST"
  else if biomeNoise < 85/100 then "TAIGA"
  else "TUNDRA"

/-- Terrain determination (`worldEngine.ts` lines 106-151): the per-biome
`switch` over elevation thresholds, with the `default` branch giving grass. -/
def terrainOf (biome : String) (elevation : ℚ) : TileType :=
  if biome = "DESERT" then
    if elevation < 3/10 then TileType.WATER
    else if elevation < 4/10 then TileType.SAND
    else if elevation < 8/10 then TileType.SAND
    else TileType.STONE
  else if biome = "SAVANNA" then
    if elevation < 35/100 then TileType.WATER
    else if elevation < 45/100 then TileType.SAND
    else TileType.GRASS
  else if biome = "GRASSLAND" then
    if elevation < 35/100 then TileType.WATER
    else if elevation < 40/100 then TileType.SAND
    else if elevation < 8/10 then TileType.GRASS
    else TileType.DIRT
  else if biome = "RAINFOREST" then
    if elevation < 30/100 then TileType.DEEP_WATER
    else if elevation < 40/100 then TileType.WATER
    else if elevation < 45/100 then TileType.SAND
    else if elevation < 75/100 then TileType.FOREST
    else TileType.GRASS
  else if biome = "TAIGA" then
    if elevation < 35/100 then TileType.WATER
    else if elevation < 45/100 then TileType.DIRT
    else if elevation < 75/100 then TileType.FOREST
    else TileType.SNOW
  else if biome = "TUNDRA" then
    if elevation < 35/100 then TileType.DEEP_WATER
    else if elevation < 45/100 then TileType.DIRT
    else if elevation < 80/100 then TileType.SNOW
    else TileType.MOUNTAIN
  else TileType.GRASS

/-- Procedural object placement (`worldEngine.ts` lines 157-175): the
biome/terrain guarded if/else chain over `objectHash`; `object` stays `null`
when no branch fires. -/
def objectRules (biome : String) (terrain : TileType) (objectHash : ℚ) :
    Option ObjectType :=
  if biome = "RAINFOREST" ∧ terrain = TileType.FOREST then
    if objectHash > 90/100 then some ObjectType.TREE_OAK
    else if objectHash > 85/100 then some ObjectType.FLOWER_RED
    else none
  else if biome = "GRASSLAND" ∧ terrain = TileType.GRASS then
    if objectHash > 98/100 then some ObjectType.TREE_OAK
    else if objectHash > 95/100 then some ObjectType.HOUSE_SMALL
    else if objectHash > 90/100 then some ObjectType.FLOWER_BLUE
    else none
  else if (biome = "DESERT" ∨ biome = "SAVANNA") ∧ terrain = TileType.SAND then
    if objectHash > 98/100 then some ObjectType.ROCK_SMALL
    else none
  else if biome = "TAIGA" ∧ terrain = TileType.FOREST then
    if objectHash > 92/100 then some ObjectType.TREE_OAK
    else none
  else if terrain = TileType.MOUNTAIN ∨ terrain = TileType.STONE then
    if objectHash > 95/100 then some ObjectType.ROCK_SMALL
    else none
  else none

/-- `WorldGenerator.getTile(x, y)` (`worldEngine.ts` lines 75-187). -/
def WorldGenerator.getTile (sin : ℚ → ℚ) (g : WorldGenerator) (x y : ℤ) : WorldTile :=
  let biomeScale : ℚ := 5/1000
  let terrainScale : ℚ := 5/100
  let biomeNoise := PRNG.smoothNoise sin g.prng ((x : ℚ) * biomeScale) ((y : ℚ) * biomeScale)
  let elevation := PRNG.smoothNoise sin g.prng ((x : ℚ) * terrainScale) ((y : ℚ) * terrainScale)
  let customSprite : Option CustomSprite :=
    if (mapGet g.placedObjects (tileKey x y)).isSome then mapGet g.placedObjects (tileKey x y)
    else none
  let biome := biomeOf biomeNoise
  let terrain := terrainOf biome elevation
  let object : Option ObjectType :=
    if customSprite.isSome then none
    else objectRules biome terrain (PRNG.noise sin g.prng (x : ℚ) (y : ℚ) 1)
  { x := x
    y := y
    terrain := terrain
    biome := biome
    object := object
    customSprite := customSprite
    variant := ⌊PRNG.noise sin g.prng (x : ℚ) (y : ℚ) 2 * 4⌋ }

/-- A sequence of `placeObject` calls, applied left to right. -/
def WorldGenerator.applyPlacements (g : WorldGenerator)
    (ps : List (ℤ × ℤ × CustomSprite)) : WorldGenerator :=
  ps.foldl (fun g p => g.placeObject p.1 p.2.1 p.2.2) g

/-- A concrete sprite record used to instantiate theorems on concrete data. -/
def sampleSprite : CustomSprite :=
  { id := "house1"
    name := "House"
    createdAt := 0
    width := 16
    height := 16
    palette := [(1, "#ff0000")]
    data := [1]
    collision := none
    portal := none }

/-! ### Lemmas about the JS-`Map` model -/

theorem mapGet_mapSet_self (m : List (String × CustomSprite)) (k : String)
    (v : CustomSprite) : mapGet (mapSet m k v) k = some v := by
  induction m with
  | nil => simp [mapSet, mapGet]
  | cons hd tl ih =>
    obtain ⟨k', v'⟩ := hd
    by_cases h : k' = k
    · subst h
      simp [mapSet, mapGet]
    · simp [mapSet, h, mapGet, ih]

theorem mapGet_mapSet_ne (m : List (String × CustomSprite)) (k k' : String)
    (v : CustomSprite) (h : k' ≠ k) : mapGet (mapSet m k' v) k = mapGet m k := by
  induction m with
  | nil => simp [mapSet, mapGet, h]
  | cons hd tl ih =>
    obtain ⟨k₀, v₀⟩ := hd
    by_cases h0 : k₀ = k'
    · subst h0
      simp [mapSet, mapGet, h]
    · by_cases h1 : k₀ = k
      · subst h1
        simp [mapSet, mapGet, h0, ih]
      · simp [mapSet, mapGet, h0, h1, ih]

theorem mapGet_eq_none_of_not_mem (m : List (String × CustomSprite)) (k : String)
    (h : k ∉ m.map Prod.fst) : mapGet m k = none := by
  induction m with
  | nil => simp [mapGet]
  | cons hd tl ih =>
    obtain ⟨k₀, v₀⟩ := hd
    simp only [List.map_cons, List.mem_cons, not_or] at h
    have h0 : k₀ ≠ k := fun hc => h.1 hc.symm
    simp [mapGet, h0, ih h.2]

theorem mapSet_eq_append (m : List (String × CustomSprite)) (k : String)
    (v : CustomSprite) (h : k ∉ m.map Prod.fst) : mapSet m k v = m ++ [(k, v)] := by
  induction m with
  | nil => simp [mapSet]
  | cons hd tl ih =>
    obtain ⟨k₀, v₀⟩ := hd
    simp only [List.map_cons, List.mem_cons, not_or] at h
    have h0 : k₀ ≠ k := fun hc => h.1 hc.symm
    simp [mapSet, h0, ih h.2]

theorem mem_keys_mapSet (m : List (String × CustomSprite)) (k : String)
    (v : CustomSprite) (a : String) :
    a ∈ (mapSet m k v).map Prod.fst ↔ a ∈ m.map Prod.fst ∨ a = k := by
  induction m with
  | nil => simp [mapSet]
  | cons hd tl ih =>
    obtain ⟨k₀, v₀⟩ := hd
    by_cases h0 : k₀ = k
    · subst h0
      simp [mapSet]
      tauto
    · simp [mapSet, h0, ih]
      tauto

theorem nodup_keys_mapSet (m : List (String × CustomSprite)) (k : String)
    (v : CustomSprite) (h : (m.map Prod.fst).Nodup) :
    ((mapSet m k v).map Prod.fst).Nodup := by
  induction m with
  | nil => simp [mapSet]
  | cons hd tl ih =>
    obtain ⟨k₀, v₀⟩ := hd
    simp only [List.map_cons, List.nodup_cons] at h
    by_cases h0 : k₀ = k
    · subst h0
      simpa [mapSet] using h
    · simp only [mapSet, if_neg h0, List.map_cons, List.nodup_cons]
      refine ⟨?_, ih h.2⟩
      rw [mem_keys_mapSet]
      rintro (hc | hc)
      · exact h.1 hc
      · exact h0 hc

theorem foldl_mapSet_append (l : List (String × CustomSprite)) :
    ∀ acc : List (String × CustomSprite), (l.map Prod.fst).Nodup →
    (∀ k, k ∈ l.map Prod.fst → k ∉ acc.map Prod.fst) →
    l.foldl (fun m e => mapSet m e.1 e.2) acc = acc ++ l := by
  induction l with
  | nil => intro acc _ _; simp
  | cons hd tl ih =>
    intro acc hnd hdisj
    obtain ⟨k, v⟩ := hd
    simp only [List.map_cons, List.nodup_cons] at hnd
    have hk : k ∉ acc.map Prod.fst := hdisj k (by simp)
    rw [List.foldl_cons]
    have hstep : mapSet acc k v = acc ++ [(k, v)] := mapSet_eq_append acc k v hk
    rw [hstep, ih (acc ++ [(k, v)]) hnd.2 ?_]
    · simp
    · intro k' hk'
      simp only [List.map_append, List.mem_append, List.map_cons, List.map_nil,
        List.mem_singleton, not_or]
      refine ⟨hdisj k' (by simp [hk']), ?_⟩
      intro hc
      exact hnd.1 (hc ▸ hk')

theorem mapFromList_eq_self (m : List (String × CustomSprite))
    (h : (m.map Prod.fst).Nodup) : mapFromList m = m := by
  have := foldl_mapSet_append m [] h (by simp)
  simpa [mapFromList] using this

theorem mapGet_foldl_mapSet_none (l : List (String × CustomSprite)) (k : String) :
    ∀ acc : List (String × CustomSprite), mapGet acc k = none →
    k ∉ l.map Prod.fst →
    mapGet (l.foldl (fun m e => mapSet m e.1 e.2) acc) k = none := by
  induction l with
  | nil => intro acc hacc _; simpa using hacc
  | cons hd tl ih =>
    intro acc hacc h
    obtain ⟨k₀, v₀⟩ := hd
    simp only [List.map_cons, List.mem_cons, not_or] at h
    rw [List.foldl_cons]
    refine ih (mapSet acc k₀ v₀) ?_ h.2
    rw [mapGet_mapSet_ne acc k k₀ v₀ (fun hc => h.1 hc.symm)]
    exact hacc

theorem mapGet_mapFromList_eq_none (l : List (String × CustomSprite)) (k : String)
    (h : k ∉ l.map Prod.fst) : mapGet (mapFromList l) k = none :=
  mapGet_foldl_mapSet_none l k [] rfl h

/-! ### Generator-level helper lemmas -/

theorem comma_mem_tileKey (x y : ℤ) : ',' ∈ (tileKey x y).data := by
  unfold tileKey
  rw [String.data_append, String.data_append]
  simp

theorem prng_applyPlacements (ps : List (ℤ × ℤ × CustomSprite)) :
    ∀ g : WorldGenerator, (g.applyPlacements ps).prng = g.prng := by
  induction ps with
  | nil => intro g; rfl
  | cons p tl ih => intro g; exact (ih (g.placeObject p.1 p.2.1 p.2.2)).trans rfl

theorem nodup_keys_applyPlacements (ps : List (ℤ × ℤ × CustomSprite)) :
    ∀ g : WorldGenerator, (g.placedObjects.map Prod.fst).Nodup →
    ((g.applyPlacements ps).placedObjects.map Prod.fst).Nodup := by
  induction ps with
  | nil => intro g h; exact h
  | cons p tl ih =>
    intro g h
    exact ih (g.placeObject p.1 p.2.1 p.2.2) (nodup_keys_mapSet g.placedObjects _ _ h)

/-! ### The claims -/

/-- C1: Determinism of generation: two independently constructed
`WorldGenerator` instances with the same seed string and no placements return
identical terrain, biome, object and variant values from `getTile(x,y)`, and
repeated calls on the same instance return the same values (for every host
sine function). -/
theorem getTile_deterministic (sin : ℚ → ℚ) (S : String) (g1 g2 : WorldGenerator)
    (h1 : g1 = WorldGenerator.create S) (h2 : g2 = WorldGenerator.create S) (x y : ℤ) :
    (g1.getTile sin x y).terrain = (g2.getTile sin x y).terrain ∧
    (g1.getTile sin x y).biome = (g2.getTile sin x y).biome ∧
    (g1.getTile sin x y).object = (g2.getTile sin x y).object ∧
    (g1.getTile sin x y).variant = (g2.getTile sin x y).variant ∧
    g1.getTile sin x y = g1.getTile sin x y := by
  subst h1
  subst h2
  exact ⟨rfl, rfl, rfl, rfl, rfl⟩

theorem getTile_deterministic_witness :
    ((WorldGenerator.create "test-seed").getTile (fun _ => 0) 0 0).terrain =
      ((WorldGenerator.create "test-seed").getTile (fun _ => 0) 0 0).terrain ∧
    ((WorldGenerator.create "test-seed").getTile (fun _ => 0) 0 0).biome =
      ((WorldGenerator.create "test-seed").getTile (fun _ => 0) 0 0).biome ∧
    ((WorldGenerator.create "test-seed").getTile (fun _ => 0) 0 0).object =
      ((WorldGenerator.create "test-seed").getTile (fun _ => 0) 0 0).object ∧
    ((WorldGenerator.create "test-seed").getTile (fun _ => 0) 0 0).variant =
      ((WorldGenerator.create "test-seed").getTile (fun _ => 0) 0 0).variant ∧
    (WorldGenerator.create "test-seed").getTile (fun _ => 0) 0 0 =
      (WorldGenerator.create "test-seed").getTile (fun _ => 0) 0 0 :=
  getTile_deterministic (fun _ => 0) "test-seed" _ _ rfl rfl 0 0

/-- C2: Biome classification is exhaustive and matches the stated bands: for
every `biomeNoise` in [0,1), exactly one of the six biomes is assigned —
desert on [0,0.15), savanna on [0.15,0.30), grassland on [0.30,0.45),
rainforest on [0.45,0.65), taiga on [0.65,0.85), tundra on [0.85,1) — and
`getTile`'s biome is exactly this classification of its biome noise. -/
theorem biome_band_classification (sin : ℚ → ℚ) (g : WorldGenerator) (x y : ℤ)
    (bn : ℚ) (h0 : 0 ≤ bn) (h1 : bn < 1) :
    (biomeOf bn = "DESERT" ∨ biomeOf bn = "SAVANNA" ∨ biomeOf bn = "GRASSLAND" ∨
      biomeOf bn = "RAINFOREST" ∨ biomeOf bn = "TAIGA" ∨ biomeOf bn = "TUNDRA") ∧
    (bn < 15/100 → biomeOf bn = "DESERT") ∧
    (15/100 ≤ bn → bn < 30/100 → biomeOf bn = "SAVANNA") ∧
    (30/100 ≤ bn → bn < 45/100 → biomeOf bn = "GRASSLAND") ∧
    (45/100 ≤ bn → bn < 65/100 → biomeOf bn = "RAINFOREST") ∧
    (65/100 ≤ bn → bn < 85/100 → biomeOf bn = "TAIGA") ∧
    (85/100 ≤ bn → biomeOf bn = "TUNDRA") ∧
    (g.getTile sin x y).biome =
      biomeOf (PRNG.smoothNoise sin g.prng ((x : ℚ) * (5/1000)) ((y : ℚ) * (5/1000))) := by
  refine ⟨?_, ?_, ?_, ?_, ?_, ?_, ?_, rfl⟩ <;>
    · intros
      unfold biomeOf
      split_ifs <;> first | tauto | linarith

theorem biome_band_classification_witness :
    (0 : ℚ) ≤ 1/2 ∧ (1/2 : ℚ) < 1 ∧ biomeOf (1/2) = "RAINFOREST" := by
  refine ⟨by norm_num, by norm_num, ?_⟩
  have h := biome_band_classification (fun _ => 0) (WorldGenerator.create "w") 0 0 (1/2)
    (by norm_num) (by norm_num)
  exact h.2.2.2.2.1 (by norm_num) (by norm_num)

/-- C5: Overlay precedence: after `placeObject(x, y, sprite)`, `getTile(x,
y)` returns that sprite as the tile's `customSprite` and a null procedural
object, while the terrain and biome fields are computed exactly as they would
be without the placement. -/
theorem overlay_precedence (sin : ℚ → ℚ) (g : WorldGenerator) (x y : ℤ)
    (s : CustomSprite) :
    ((g.placeObject x y s).getTile sin x y).customSprite = some s ∧
    ((g.placeObject x y s).getTile sin x y).object = none ∧
    ((g.placeObject x y s).getTile sin x y).terrain = (g.getTile sin x y).terrain ∧
    ((g.placeObject x y s).getTile sin x y).biome = (g.getTile sin x y).biome := by
  refine ⟨?_, ?_, rfl, rfl⟩
  · simp [WorldGenerator.getTile, WorldGenerator.placeObject, mapGet_mapSet_self]
  · simp [WorldGenerator.getTile, WorldGenerator.placeObject, mapGet_mapSet_self]

/-- C8: Totality and range of the noise primitive: for every host sine
function, every seed and all rational inputs, `PRNG.noise(x, y, layer)` is a
total function returning a value in [0,1), computed as the fractional part of
`sin(x*12.9898 + y*78.233 + seedInt + layer*131.2) * 43758.5453`. -/
theorem noise_total_range (sin : ℚ → ℚ) (p : PRNG) (x y layer : ℚ) :
    0 ≤ PRNG.noise sin p x y layer ∧ PRNG.noise sin p x y layer < 1 ∧
    PRNG.noise sin p x y layer =
      Int.fract (sin (x * (129898/10000) + y * (78233/1000) + (p.seed : ℚ)
        + layer * (1312/10)) * (437585453/10000)) := by
  refine ⟨?_, ?_, rfl⟩
  · exact Int.fract_nonneg _
  · exact Int.fract_lt_one _

/-- C10: The `'Unknown'` biome fallback is unreachable: for every generator,
every host sine function and every integer coordinate pair, `getTile` returns
one of the six named biomes and never the initial `'Unknown'` value, so the
default always-grass branch of the biome switch is dead code. -/
theorem biome_never_unknown (sin : ℚ → ℚ) (g : WorldGenerator) (x y : ℤ) :
    ((g.getTile sin x y).biome = "DESERT" ∨ (g.getTile sin x y).biome = "SAVANNA" ∨
      (g.getTile sin x y).biome = "GRASSLAND" ∨ (g.getTile sin x y).biome = "RAINFOREST" ∨
      (g.getTile sin x y).biome = "TAIGA" ∨ (g.getTile sin x y).biome = "TUNDRA") ∧
    (g.getTile sin x y).biome ≠ "Unknown" := by
  have hb : (g.getTile sin x y).biome =
      biomeOf (PRNG.smoothNoise sin g.prng ((x : ℚ) * (5/1000)) ((y : ℚ) * (5/1000))) := rfl
  rw [hb]
  unfold biomeOf
  split_ifs <;> simp

theorem terrainOf_DESERT (e : ℚ) :
    terrainOf "DESERT" e =
      (if e < 3/10 then TileType.WATER
       else if e < 4/10 then TileType.SAND
       else if e < 8/10 then TileType.SAND
       else TileType.STONE) := by
  simp [terrainOf]

theorem terrainOf_SAVANNA (e : ℚ) :
    terrainOf "SAVANNA" e =
      (if e < 35/100 then TileType.WATER
       else if e < 45/100 then TileType.SAND
       else TileType.GRASS) := by
  simp [terrainOf]

theorem terrainOf_GRASSLAND (e : ℚ) :
    terrainOf "GRASSLAND" e =
      (if e < 35/100 then TileType.WATER
       else if e < 40/100 then TileType.SAND
       else if e < 8/10 then TileType.GRASS
       else TileType.DIRT) := by
  simp [terrainOf]

theorem terrainOf_RAINFOREST (e : ℚ) :
    terrainOf "RAINFOREST" e =
      (if e < 30/100 then TileType.DEEP_WATER
       else if e < 40/100 then TileType.WATER
       else if e < 45/100 then TileType.SAND
       else if e < 75/100 then TileType.FOREST
       else TileType.GRASS) := by
  simp [terrainOf]

theorem terrainOf_TAIGA (e : ℚ) :
    terrainOf "TAIGA" e =
      (if e < 35/100 then TileType.WATER
       else if e < 45/100 then TileType.DIRT
       else if e < 75/100 then TileType.FOREST
       else TileType.SNOW) := by
  simp [terrainOf]

theorem terrainOf_TUNDRA (e : ℚ) :
    terrainOf "TUNDRA" e =
      (if e < 35/100 then TileType.DEEP_WATER
       else if e < 45/100 then TileType.DIRT
       else if e < 80/100 then TileType.SNOW
       else TileType.MOUNTAIN) := by
  simp [terrainOf]

/-- C3: Terrain selection follows the per-biome ascending threshold table
over elevation, for every elevation value and every biome; the unknown-biome
fallback terrain is grass, and `getTile`'s terrain is exactly this table
applied to its biome and elevation noise. -/
theorem terrain_threshold_table (sin : ℚ → ℚ) (g : WorldGenerator) (x y : ℤ)
    (e : ℚ) (b : String) :
    (e < 3/10 → terrainOf "DESERT" e = TileType.WATER) ∧
    (3/10 ≤ e → e < 4/10 → terrainOf "DESERT" e = TileType.SAND) ∧
    (4/10 ≤ e → e < 8/10 → terrainOf "DESERT" e = TileType.SAND) ∧
    (8/10 ≤ e → terrainOf "DESERT" e = TileType.STONE) ∧
    (e < 35/100 → terrainOf "SAVANNA" e = TileType.WATER) ∧
    (35/100 ≤ e → e < 45/100 → terrainOf "SAVANNA" e = TileType.SAND) ∧
    (45/100 ≤ e → terrainOf "SAVANNA" e = TileType.GRASS) ∧
    (e < 35/100 → terrainOf "GRASSLAND" e = TileType.WATER) ∧
    (35/100 ≤ e → e < 40/100 → terrainOf "GRASSLAND" e = TileType.SAND) ∧
    (40/100 ≤ e → e < 8/10 → terrainOf "GRASSLAND" e = TileType.GRASS) ∧
    (8/10 ≤ e → terrainOf "GRASSLAND" e = TileType.DIRT) ∧
    (e < 30/100 → terrainOf "RAINFOREST" e = TileType.DEEP_WATER) ∧
    (30/100 ≤ e → e < 40/100 → terrainOf "RAINFOREST" e = TileType.WATER) ∧
    (40/100 ≤ e → e < 45/100 → terrainOf "RAINFOREST" e = TileType.SAND) ∧
    (45/100 ≤ e → e < 75/100 → terrainOf "RAINFOREST" e = TileType.FOREST) ∧
    (75/100 ≤ e → terrainOf "RAINFOREST" e = TileType.GRASS) ∧
    (e < 35/100 → terrainOf "TAIGA" e = TileType.WATER) ∧
    (35/100 ≤ e → e < 45/100 → terrainOf "TAIGA" e = TileType.DIRT) ∧
    (45/100 ≤ e → e < 75/100 → terrainOf "TAIGA" e = TileType.FOREST) ∧
    (75/100 ≤ e → terrainOf "TAIGA" e = TileType.SNOW) ∧
    (e < 35/100 → terrainOf "TUNDRA" e = TileType.DEEP_WATER) ∧
    (35/100 ≤ e → e < 45/100 → terrainOf "TUNDRA" e = TileType.DIRT) ∧
    (45/100 ≤ e → e < 80/100 → terrainOf "TUNDRA" e = TileType.SNOW) ∧
    (80/100 ≤ e → terrainOf "TUNDRA" e = TileType.MOUNTAIN) ∧
    (b ≠ "DESERT" → b ≠ "SAVANNA" → b ≠ "GRASSLAND" → b ≠ "RAINFOREST" →
      b ≠ "TAIGA" → b ≠ "TUNDRA" → terrainOf b e = TileType.GRASS) ∧
    (g.getTile sin x y).terrain =
      terrainOf (g.getTile sin x y).biome
        (PRNG.smoothNoise sin g.prng ((x : ℚ) * (5/100)) ((y : ℚ) * (5/100))) := by
  refine ⟨?_, ?_, ?_, ?_, ?_, ?_, ?_, ?_, ?_, ?_, ?_, ?_, ?_, ?_, ?_, ?_, ?_, ?_, ?_, ?_,
    ?_, ?_, ?_, ?_, ?_, rfl⟩ <;>
    · intros
      first
        | · simp only [terrainOf_DESERT, terrainOf_SAVANNA, terrainOf_GRASSLAND,
              terrainOf_RAINFOREST, terrainOf_TAIGA, terrainOf_TUNDRA]
            split_ifs <;> first | rfl | linarith
        | simp [terrainOf, *]

theorem terrain_threshold_table_witness :
    (45 : ℚ)/100 ≤ 1/2 ∧ (1/2 : ℚ) < 75/100 ∧
    terrainOf "RAINFOREST" (1/2) = TileType.FOREST := by
  refine ⟨by norm_num, by norm_num, ?_⟩
  have h := terrain_threshold_table (fun _ => 0) (WorldGenerator.create "w") 0 0 (1/2) "X"
  exact h.2.2.2.2.2.2.2.2.2.2.2.2.2.2.1 (by norm_num) (by norm_num)

/-- C4: Procedural object placement follows the biome-and-terrain specific
descending-threshold rules on `objectHash`: rainforest+forest, grassland+
grass, (desert|savanna)+sand, taiga+forest, mountain/stone in any biome, and
no object for every other combination; and when no sprite is placed at the
tile, `getTile`'s object is exactly these rules applied at
`objectHash = noise(x, y, layer=1)`. -/
theorem object_placement_rules (sin : ℚ → ℚ) (g : WorldGenerator) (x y : ℤ)
    (b : String) (t : TileType) (h : ℚ) :
    (objectRules "RAINFOREST" TileType.FOREST h =
      if h > 90/100 then some ObjectType.TREE_OAK
      else if h > 85/100 then some ObjectType.FLOWER_RED
      else none) ∧
    (objectRules "GRASSLAND" TileType.GRASS h =
      if h > 98/100 then some ObjectType.TREE_OAK
      else if h > 95/100 then some ObjectType.HOUSE_SMALL
      else if h > 90/100 then some ObjectType.FLOWER_BLUE
      else none) ∧
    (objectRules "DESERT" TileType.SAND h =
      if h > 98/100 then some ObjectType.ROCK_SMALL else none) ∧
    (objectRules "SAVANNA" TileType.SAND h =
      if h > 98/100 then some ObjectType.ROCK_SMALL else none) ∧
    (objectRules "TAIGA" TileType.FOREST h =
      if h > 92/100 then some ObjectType.TREE_OAK else none) ∧
    ((t = TileType.MOUNTAIN ∨ t = TileType.STONE) →
      objectRules b t h = if h > 95/100 then some ObjectType.ROCK_SMALL else none) ∧
    (¬(b = "RAINFOREST" ∧ t = TileType.FOREST) →
      ¬(b = "GRASSLAND" ∧ t = TileType.GRASS) →
      ¬((b = "DESERT" ∨ b = "SAVANNA") ∧ t = TileType.SAND) →
      ¬(b = "TAIGA" ∧ t = TileType.FOREST) →
      ¬(t = TileType.MOUNTAIN ∨ t = TileType.STONE) →
      objectRules b t h = none) ∧
    (mapGet g.placedObjects (tileKey x y) = none →
      (g.getTile sin x y).object =
        objectRules (g.getTile sin x y).biome (g.getTile sin x y).terrain
          (PRNG.noise sin g.prng (x : ℚ) (y : ℚ) 1)) := by
  refine ⟨?_, ?_, ?_, ?_, ?_, ?_, ?_, ?_⟩
  · simp [objectRules]
  · simp [objectRules]
  · simp [objectRules]
  · simp [objectRules]
  · simp [objectRules]
  · rintro (rfl | rfl) <;> simp [objectRules]
  · intro h1 h2 h3 h4 h5
    unfold objectRules
    split_ifs <;> first | rfl | tauto
  · intro hm
    simp [WorldGenerator.getTile, hm]

theorem object_placement_rules_witness :
    objectRules "TUNDRA" TileType.MOUNTAIN (96/100) = some ObjectType.ROCK_SMALL := by
  have h := (object_placement_rules (fun _ => 0) (WorldGenerator.create "w") 0 0
    "TUNDRA" TileType.MOUNTAIN (96/100)).2.2.2.2.2.1 (Or.inl rfl)
  rw [h, if_pos (by norm_num)]

/-- C6: Serialize/deserialize round-trip: for any sequence of `placeObject`
calls on a generator, feeding `serializePlacedObjects()` into
`deserializePlacedObjects` on a fresh generator with the same seed yields
`getTile` results identical to the original generator's at every coordinate,
placed and unplaced alike. -/
theorem serialize_roundtrip (sin : ℚ → ℚ) (S : String)
    (ps : List (ℤ × ℤ × CustomSprite)) (x y : ℤ) :
    ((WorldGenerator.create S).deserializePlacedObjects
        ((WorldGenerator.create S).applyPlacements ps).serializePlacedObjects).getTile sin x y
      = ((WorldGenerator.create S).applyPlacements ps).getTile sin x y := by
  have hp := prng_applyPlacements ps (WorldGenerator.create S)
  have hnd : ((((WorldGenerator.create S).applyPlacements ps)).placedObjects.map
      Prod.fst).Nodup :=
    nodup_keys_applyPlacements ps (WorldGenerator.create S) (by simp [WorldGenerator.create])
  have hg : (WorldGenerator.create S).deserializePlacedObjects
      (((WorldGenerator.create S).applyPlacements ps).serializePlacedObjects)
      = (WorldGenerator.create S).applyPlacements ps := by
    unfold WorldGenerator.deserializePlacedObjects WorldGenerator.serializePlacedObjects
    rw [mapFromList_eq_self _ hnd, ← hp]
  rw [hg]

/-- C7: Overlay replacement semantics: `deserializePlacedObjects(entries)`
discards all prior placements; at any coordinate placed before the call whose
key is absent from `entries`, a subsequent `getTile` returns the purely
procedural result: no custom sprite, procedural object computed, and the
whole tile equal to that of an overlay-free generator with the same seed. -/
theorem deserialize_replaces_overlay (sin : ℚ → ℚ) (g : WorldGenerator)
    (entries : List (String × CustomSprite)) (x y : ℤ) (s : CustomSprite)
    (hprev : mapGet g.placedObjects (tileKey x y) = some s)
    (habs : tileKey x y ∉ entries.map Prod.fst) :
    ((g.deserializePlacedObjects entries).getTile sin x y).customSprite = none ∧
    ((g.deserializePlacedObjects entries).getTile sin x y).object =
      objectRules ((g.deserializePlacedObjects entries).getTile sin x y).biome
        ((g.deserializePlacedObjects entries).getTile sin x y).terrain
        (PRNG.noise sin g.prng (x : ℚ) (y : ℚ) 1) ∧
    (g.deserializePlacedObjects entries).getTile sin x y =
      (WorldGenerator.mk g.prng []).getTile sin x y := by
  have hnone : mapGet (mapFromList entries) (tileKey x y) = none :=
    mapGet_mapFromList_eq_none entries _ habs
  refine ⟨?_, ?_, ?_⟩ <;>
    simp [WorldGenerator.getTile, WorldGenerator.deserializePlacedObjects, hnone, mapGet]

theorem deserialize_replaces_overlay_witness :
    mapGet ((WorldGenerator.create "s").placeObject 0 0 sampleSprite).placedObjects
      (tileKey 0 0) = some sampleSprite ∧
    tileKey 0 0 ∉ ([] : List (String × CustomSprite)).map Prod.fst ∧
    ((((WorldGenerator.create "s").placeObject 0 0 sampleSprite).deserializePlacedObjects
        []).getTile (fun _ => 0) 0 0).customSprite = none := by
  refine ⟨rfl, by simp, ?_⟩
  exact (deserialize_replaces_overlay (fun _ => 0)
    ((WorldGenerator.create "s").placeObject 0 0 sampleSprite) [] 0 0 sampleSprite
    rfl (by simp)).1

/-- C9 (counterexample): an entry whose key does not decode to two integer
coordinates — `"bogus"` is not `tileKey x y` for any integers x, y — is
retained verbatim by `deserializePlacedObjects` and appears in the next
`serializePlacedObjects` result, contradicting the claim that unparseable
entries are skipped and never affect serialization. -/
theorem malformed_entries_retained :
    ((WorldGenerator.create "seed").deserializePlacedObjects
        [("bogus", sampleSprite)]).serializePlacedObjects = [("bogus", sampleSprite)] ∧
    (∀ x y : ℤ, "bogus" ≠ tileKey x y) ∧
    ((WorldGenerator.create "seed").deserializePlacedObjects
        [("bogus", sampleSprite)]).serializePlacedObjects ≠ [] := by
  refine ⟨rfl, ?_, by simp [WorldGenerator.serializePlacedObjects,
    WorldGenerator.deserializePlacedObjects, mapFromList, mapSet]⟩
  intro x y hc
  have hm := comma_mem_tileKey x y
  rw [← hc] at hm
  revert hm
  decide

theorem mapGet_mapSet (m : List (String × CustomSprite)) (k k' : String)
    (v : CustomSprite) :
    mapGet (mapSet m k' v) k = if k' = k then some v else mapGet m k := by
  by_cases h : k' = k
  · subst h
    simp [mapGet_mapSet_self]
  · simp [h, mapGet_mapSet_ne m k k' v h]

theorem mapGet_foldl_mapSet_eq (l : List (String × CustomSprite)) (k : String) :
    ∀ acc : List (String × CustomSprite),
    mapGet (l.foldl (fun m e => mapSet m e.1 e.2) acc) k =
      l.foldl (fun r e => if e.1 = k then some e.2 else r) (mapGet acc k) := by
  induction l with
  | nil => intro acc; rfl
  | cons e tl ih =>
    intro acc
    rw [List.foldl_cons, List.foldl_cons, ih (mapSet acc e.1 e.2), mapGet_mapSet]

theorem mapGet_mapFromList (l : List (String × CustomSprite)) (k : String) :
    mapGet (mapFromList l) k =
      l.foldl (fun r e => if e.1 = k then some e.2 else r) none := by
  have h := mapGet_foldl_mapSet_eq l k []
  simpa [mapFromList, mapGet] using h

theorem foldl_lookup_filter (p : String × CustomSprite → Bool) (k : String)
    (l : List (String × CustomSprite)) :
    ∀ init : Option CustomSprite, (∀ e ∈ l, e.1 = k → p e = true) →
    (l.filter p).foldl (fun r e => if e.1 = k then some e.2 else r) init =
      l.foldl (fun r e => if e.1 = k then some e.2 else r) init := by
  induction l with
  | nil => intro init _; rfl
  | cons e tl ih =>
    intro init hkeep
    by_cases hpe : p e = true
    · rw [List.filter_cons, if_pos hpe, List.foldl_cons, List.foldl_cons]
      exact ih _ (fun e' he' => hkeep e' (List.mem_cons_of_mem _ he'))
    · have he1 : e.1 ≠ k := fun hc => hpe (hkeep e (List.mem_cons_self e tl) hc)
      rw [List.filter_cons, if_neg hpe, List.foldl_cons, if_neg he1]
      exact ih init (fun e' he' => hkeep e' (List.mem_cons_of_mem _ he'))

theorem getTile_congr (sin : ℚ → ℚ) (g1 g2 : WorldGenerator) (x y : ℤ)
    (hprng : g1.prng = g2.prng)
    (hget : mapGet g1.placedObjects (tileKey x y) = mapGet g2.placedObjects (tileKey x y)) :
    g1.getTile sin x y = g2.getTile sin x y := by
  simp only [WorldGenerator.getTile, hprng, hget]

/-- C9 (amended): `deserializePlacedObjects` never fails on malformed
entries, but it does not skip them: every entry is retained in the overlay
(and appears in the next `serializePlacedObjects` result).  Malformed
entries never affect any `getTile` result, even when mixed with well-formed
ones: dropping from the received entries any subset in which every dropped
entry has a key that is `tileKey a b` for no integers a, b leaves every
`getTile` result unchanged. -/
theorem malformed_entries_harmless (sin : ℚ → ℚ) (g : WorldGenerator)
    (entries : List (String × CustomSprite)) (p : String × CustomSprite → Bool)
    (hdrop : ∀ e ∈ entries, p e = false → ∀ a b : ℤ, e.1 ≠ tileKey a b) :
    (∀ x y : ℤ, (g.deserializePlacedObjects entries).getTile sin x y =
      (g.deserializePlacedObjects (entries.filter p)).getTile sin x y) ∧
    (g.deserializePlacedObjects entries).serializePlacedObjects = mapFromList entries := by
  refine ⟨?_, rfl⟩
  intro x y
  apply getTile_congr
  · rfl
  · show mapGet (mapFromList entries) (tileKey x y) =
      mapGet (mapFromList (entries.filter p)) (tileKey x y)
    rw [mapGet_mapFromList, mapGet_mapFromList]
    symm
    apply foldl_lookup_filter
    intro e he hek
    by_cases hpe : p e = true
    · exact hpe
    · exact absurd hek (hdrop e he (by simpa using hpe) x y)

theorem malformed_entries_harmless_witness :
    (∀ e ∈ [("0,0", sampleSprite), ("bogus", sampleSprite)],
      (fun e2 : String × CustomSprite => e2.1 != "bogus") e = false →
      ∀ a b : ℤ, e.1 ≠ tileKey a b) ∧
    ((WorldGenerator.create "s").deserializePlacedObjects
        [("0,0", sampleSprite), ("bogus", sampleSprite)]).getTile (fun _ => 0) 0 0 =
      ((WorldGenerator.create "s").deserializePlacedObjects
        ([("0,0", sampleSprite), ("bogus", sampleSprite)].filter
          (fun e2 : String × CustomSprite => e2.1 != "bogus"))).getTile (fun _ => 0) 0 0 := by
  have hdrop : ∀ e ∈ [("0,0", sampleSprite), ("bogus", sampleSprite)],
      (fun e2 : String × CustomSprite => e2.1 != "bogus") e = false →
      ∀ a b : ℤ, e.1 ≠ tileKey a b := by
    intro e he hpe a b
    simp only [List.mem_cons, List.not_mem_nil, or_false] at he
    rcases he with rfl | rfl
    · exact absurd hpe (by decide)
    · intro hc
      have hm := comma_mem_tileKey a b
      rw [← hc] at hm
      revert hm
      decide
  exact ⟨hdrop, (malformed_entries_harmless (fun _ => 0) (WorldGenerator.create "s")
    [("0,0", sampleSprite), ("bogus", sampleSprite)]
    (fun e2 => e2.1 != "bogus") hdrop).1 0 0⟩

theorem biome_never_unknown_witness :
    (((WorldGenerator.create "w").getTile (fun _ => 0) 0 0).biome = "DESERT" ∨
      ((WorldGenerator.create "w").getTile (fun _ => 0) 0 0).biome = "SAVANNA" ∨
      ((WorldGenerator.create "w").getTile (fun _ => 0) 0 0).biome = "GRASSLAND" ∨
      ((WorldGenerator.create "w").getTile (fun _ => 0) 0 0).biome = "RAINFOREST" ∨
      ((WorldGenerator.create "w").getTile (fun _ => 0) 0 0).biome = "TAIGA" ∨
      ((WorldGenerator.create "w").getTile (fun _ => 0) 0 0).biome = "TUNDRA") ∧
    ((WorldGenerator.create "w").getTile (fun _ => 0) 0 0).biome ≠ "Unknown" :=
  biome_never_unknown (fun _ => 0) (WorldGenerator.create "w") 0 0
